import Mathlib

/-!
Verification of the supplier-recommendation system
(`src/microservice/model_handler.py`, `src/microservice/app.py`,
`src/supplier_recommendation.py`) against its specification.

The embedding is exact: Python floats are modelled as rationals (ℚ) and
`round(x, d)` is modelled as `⌊x·10^d + 1/2⌋ / 10^d`; every concrete input
used below is far from a rounding tie, so the tie-breaking convention is
irrelevant. The trained classifier, the label encoders, the target encoder
and the catalog are external artifacts loaded at startup; they appear here
as plain data inside `SystemState` (the classifier as an opaque function
from the encoded feature vector to the per-class probability list).
-/

set_option maxRecDepth 2000

/-- A row of the supplier catalog
(`data/dewatering_realistic_supplier_dataset.csv`), with the column types
given by the spec's data model (§3). -/
structure SupplierRow where
  product_type : String
  supplier_name : String
  country : String
  quality_rating : ℚ
  price_usd : ℚ
  delivery_days : ℤ
  payment_terms_days : ℤ
  shipping_included : Bool
  express_available : Bool
  incoterms : String
deriving DecidableEq

/-- A raw feature value of the per-supplier model input frame: numeric or
string, before label encoding. -/
inductive Feat where
  | num (q : ℚ)
  | str (s : String)
deriving DecidableEq

/-- Models `str(value)`, as applied by `astype(str)` before `transform`. -/
def featStr : Feat → String
  | .num q => toString q
  | .str s => s

/-- A fitted `sklearn` `LabelEncoder`: its `classes_` list.
`transform` maps a seen value to its index and raises on unseen values. -/
structure LabelEncoder where
  classes : List String
deriving DecidableEq

/-- Models `encoder.transform([value])` wrapped in the source's
`try ... except ValueError: input_data[feature] = 0`: index of the value
among the known classes, or the sentinel 0 when unseen. -/
def LabelEncoder.transform (enc : LabelEncoder) (value : String) : ℚ :=
  match enc.classes.findIdx? (fun c => c == value) with
  | some i => (i : ℚ)
  | none => 0

/-- The state loaded by `load_system`: catalog, per-feature label encoders,
the target encoder's class list, the model's feature-name order, the model
itself (opaque: encoded features, in `feature_names` order, to per-class
probabilities `predict_proba(...)[0]`), and the reference date's month
(`datetime.now().month`, injected so both entry points share it). -/
structure SystemState where
  df : List SupplierRow
  label_encoders : List (String × LabelEncoder)
  target_classes : List String
  feature_names : List String
  predict_proba : List Feat → List ℚ
  month : ℕ

/-- One entry of the output `recommendations` list, fields as the source
dict at `model_handler.py:128-140,156,158-166`. -/
structure Recommendation where
  supplier_name : String
  country : String
  quality_rating : ℚ
  price_usd : ℚ
  total_cost : ℚ
  delivery_days : ℤ
  payment_terms_days : ℤ
  probability_score : ℚ
  within_budget : Bool
  shipping_included : Bool
  express_available : Bool
  final_score : ℚ
  recommendation_level : String
deriving DecidableEq

/-- The success envelope returned at `model_handler.py:173-180`. -/
structure RecommendationResult where
  product_type : String
  urgency : String
  quantity : ℤ
  budget : ℚ
  recommendations : List Recommendation
  total_options : ℕ
deriving DecidableEq

/-- The two `{"error": ...}` shapes `recommend_suppliers` can return,
distinguished by their message content: an invalid-urgency validation
error (listing the valid urgencies) or a product-not-found error (listing
the available product types). -/
inductive CoreError where
  | invalidUrgency (valid : List String)
  | productNotFound (available_types : List String)
deriving DecidableEq

/-- The client-error shapes the `/recommend` endpoint (`app.py:103-127`)
can produce before/around the core call. -/
inductive ApiError where
  | badUrgency (valid : List String)
  | badQuantity
  | badBudget
  | fromCore (e : CoreError)
deriving DecidableEq

/-- Python's `round(x, d)` on exact values: nearest multiple of `10^(-d)`
(`round` in Mathlib is `⌊x + 1/2⌋`; Python breaks exact ties to even, a
difference that no statement below exercises). -/
def roundTo (d : ℕ) (x : ℚ) : ℚ :=
  ((Rat.floor (x * 10 ^ d + 1 / 2) : ℤ) : ℚ) / 10 ^ d

/-- The `valid_urgencies` list (`model_handler.py:71`, `app.py:104`). -/
def valid_urgencies : List String := ["Low", "Medium", "High", "Critical"]

/-- The 12-column single-row frame built at `model_handler.py:87-100`. -/
def buildInput (product_type urgency : String) (quantity : ℤ) (budget : ℚ)
    (supplier_data : SupplierRow) (month : ℕ) : List (String × Feat) :=
  [("price_usd", .num supplier_data.price_usd),
   ("delivery_days", .num (supplier_data.delivery_days : ℚ)),
   ("payment_terms_days", .num (supplier_data.payment_terms_days : ℚ)),
   ("shipping_included", .num (if supplier_data.shipping_included then 1 else 0)),
   ("express_available", .num (if supplier_data.express_available then 1 else 0)),
   ("order_urgency", .str urgency),
   ("quantity_needed", .num (quantity : ℚ)),
   ("budget_available", .num budget),
   ("product_type", .str product_type),
   ("incoterms", .str supplier_data.incoterms),
   ("month", .num (month : ℚ)),
   ("quarter", .str ("Q" ++ toString ((month - 1) / 3 + 1)))]

/-- The encoding loop at `model_handler.py:102-108`: every column that has
a fitted encoder is replaced by its integer code, with sentinel 0 for
unseen values; other columns are untouched. -/
def applyEncoders (label_encoders : List (String × LabelEncoder))
    (input_data : List (String × Feat)) : List (String × Feat) :=
  input_data.map (fun col =>
    match label_encoders.lookup col.1 with
    | some enc => (col.1, Feat.num (enc.transform (featStr col.2)))
    | none => col)

/-- Models `input_data = input_data[self.feature_names]` (`model_handler.py:111`).
A declared feature name missing from the columns is a fatal configuration
error in the source (a KeyError); the `getD` default is unreachable for
consistent artifacts. -/
def reorderColumns (feature_names : List String)
    (input_data : List (String × Feat)) : List Feat :=
  feature_names.map (fun n => (input_data.lookup n).getD (Feat.num 0))

/-- The tier if-chain at `model_handler.py:159-166`, applied to the
(unrounded) `final_score` variable. -/
def recommendationLevel (final_score : ℚ) : String :=
  if final_score ≥ 0.75 then "Altamente Recomendado"
  else if final_score ≥ 0.6 then "Recomendado"
  else if final_score ≥ 0.45 then "Aceptable"
  else "No Recomendado"

/-- The per-supplier body of `SupplierRecommender.recommend_suppliers`
(`model_handler.py:86-166`): encode, predict, cost, sub-scores, blended
score and tier. `probabilities.getD i 0`: an in-range index is guaranteed
whenever the model's class count matches `target_classes` (a startup
artifact invariant); the default is unreachable then. -/
def mkRecommendation (st : SystemState) (product_type urgency : String)
    (quantity : ℤ) (budget : ℚ) (supplier_data : SupplierRow) : Recommendation :=
  let input_data := buildInput product_type urgency quantity budget supplier_data st.month
  let encoded := applyEncoders st.label_encoders input_data
  let ordered := reorderColumns st.feature_names encoded
  let probabilities := st.predict_proba ordered
  let probability : ℚ :=
    match st.target_classes.findIdx? (fun c => c == supplier_data.supplier_name) with
    | some i => probabilities.getD i 0
    | none => 0
  let total_cost : ℚ :=
    supplier_data.price_usd * (quantity : ℚ) +
      (if supplier_data.shipping_included then 0 else 300)
  let probability_score := roundTo 3 probability
  let within_budget := decide (total_cost ≤ budget)
  let quality_score := supplier_data.quality_rating / 5
  let price_score : ℚ := if within_budget then 1 else 0.5
  let delivery_score : ℚ := if supplier_data.delivery_days ≤ 15 then 1 else 0.7
  let payment_score : ℚ := if supplier_data.payment_terms_days > 0 then 1 else 0.8
  let final_score :=
    probability_score * 0.4 + quality_score * 0.25 + price_score * 0.2 +
      delivery_score * 0.1 + payment_score * 0.05
  { supplier_name := supplier_data.supplier_name
    country := supplier_data.country
    quality_rating := supplier_data.quality_rating
    price_usd := supplier_data.price_usd
    total_cost := roundTo 2 total_cost
    delivery_days := supplier_data.delivery_days
    payment_terms_days := supplier_data.payment_terms_days
    probability_score := probability_score
    within_budget := within_budget
    shipping_included := supplier_data.shipping_included
    express_available := supplier_data.express_available
    final_score := roundTo 3 final_score
    recommendation_level := recommendationLevel final_score }

/-- Models `available_products['supplier_name'].unique()` followed by
`.iloc[0]` per name (`model_handler.py:83-84`): the first row of each
distinct supplier name, in first-occurrence order. -/
def firstRowsByName : List SupplierRow → List SupplierRow
  | [] => []
  | r :: rs =>
      r :: firstRowsByName (rs.filter (fun x => x.supplier_name != r.supplier_name))
termination_by l => l.length
decreasing_by
  simp only [List.length_cons]
  exact Nat.lt_succ_of_le (List.length_filter_le _ _)

/-- Models `pandas.Series.unique`: distinct values in first-occurrence order. -/
def uniqueFirst : List String → List String
  | [] => []
  | s :: rest => s :: uniqueFirst (rest.filter (fun x => x != s))
termination_by l => l.length
decreasing_by
  simp only [List.length_cons]
  exact Nat.lt_succ_of_le (List.length_filter_le _ _)

/-- The order used by `recommendations.sort(key=..., reverse=True)`
(`model_handler.py:171`): `a` may stay before `b` iff `a`'s reported score
is at least `b`'s. Python's sort is stable; `List.insertionSort` with this
relation is the stable descending sort by `final_score`. -/
def recLE (a b : Recommendation) : Prop :=
  b.final_score ≤ a.final_score

instance : DecidableRel recLE := fun a b => by
  unfold recLE; infer_instance

instance : IsTotal Recommendation recLE :=
  ⟨fun a b => le_total b.final_score a.final_score⟩

instance : IsTrans Recommendation recLE :=
  ⟨fun _ _ _ h1 h2 => le_trans h2 h1⟩

/-- Models `SupplierRecommender.recommend_suppliers`
(`src/microservice/model_handler.py:68-180`). -/
def recommend_suppliers (st : SystemState) (product_type urgency : String)
    (quantity : ℤ) (budget : ℚ) : Except CoreError RecommendationResult :=
  if urgency ∉ valid_urgencies then
    .error (.invalidUrgency valid_urgencies)
  else
    let available_products := st.df.filter (fun r => r.product_type == product_type)
    if available_products.isEmpty then
      .error (.productNotFound (uniqueFirst (st.df.map (·.product_type))))
    else
      let recommendations :=
        List.insertionSort recLE
          ((firstRowsByName available_products).map
            (mkRecommendation st product_type urgency quantity budget))
      .ok { product_type := product_type, urgency := urgency,
            quantity := quantity, budget := budget,
            recommendations := recommendations,
            total_options := recommendations.length }

/-- The `/recommend` endpoint (`src/microservice/app.py:97-132`): urgency,
quantity and budget validation, then the core call, whose error dict is
mapped to a client error. -/
def api_recommend (st : SystemState) (product_type urgency : String)
    (quantity : ℤ) (budget : ℚ) : Except ApiError RecommendationResult :=
  if urgency ∉ valid_urgencies then .error (.badUrgency valid_urgencies)
  else if quantity ≤ 0 then .error .badQuantity
  else if budget ≤ 0 then .error .badBudget
  else
    match recommend_suppliers st product_type urgency quantity budget with
    | .error e => .error (.fromCore e)
    | .ok res => .ok res

/-- The tier if-chain of the CLI program
(`src/supplier_recommendation.py:250-258`): same thresholds, different
(emoji-prefixed) strings. -/
def recommendationLevelCLI (final_score : ℚ) : String :=
  if final_score ≥ 0.75 then "⭐⭐⭐ Altamente Recomendado"
  else if final_score ≥ 0.6 then "⭐⭐ Recomendado"
  else if final_score ≥ 0.45 then "⭐ Aceptable"
  else "❌ No Recomendado"

/-- The per-supplier body of the CLI's `recommend_suppliers`
(`src/supplier_recommendation.py:175-260`). Identical to the microservice
body except for the tier strings: the `float`/`int`/`bool` casts present
only in the microservice copy are numeric identities on the exact values
modelled here. -/
def mkRecommendationCLI (st : SystemState) (product_type urgency : String)
    (quantity : ℤ) (budget : ℚ) (supplier_data : SupplierRow) : Recommendation :=
  let input_data := buildInput product_type urgency quantity budget supplier_data st.month
  let encoded := applyEncoders st.label_encoders input_data
  let ordered := reorderColumns st.feature_names encoded
  let probabilities := st.predict_proba ordered
  let probability : ℚ :=
    match st.target_classes.findIdx? (fun c => c == supplier_data.supplier_name) with
    | some i => probabilities.getD i 0
    | none => 0
  let total_cost : ℚ :=
    supplier_data.price_usd * (quantity : ℚ) +
      (if supplier_data.shipping_included then 0 else 300)
  let probability_score := roundTo 3 probability
  let within_budget := decide (total_cost ≤ budget)
  let quality_score := supplier_data.quality_rating / 5
  let price_score : ℚ := if within_budget then 1 else 0.5
  let delivery_score : ℚ := if supplier_data.delivery_days ≤ 15 then 1 else 0.7
  let payment_score : ℚ := if supplier_data.payment_terms_days > 0 then 1 else 0.8
  let final_score :=
    probability_score * 0.4 + quality_score * 0.25 + price_score * 0.2 +
      delivery_score * 0.1 + payment_score * 0.05
  { supplier_name := supplier_data.supplier_name
    country := supplier_data.country
    quality_rating := supplier_data.quality_rating
    price_usd := supplier_data.price_usd
    total_cost := roundTo 2 total_cost
    delivery_days := supplier_data.delivery_days
    payment_terms_days := supplier_data.payment_terms_days
    probability_score := probability_score
    within_budget := within_budget
    shipping_included := supplier_data.shipping_included
    express_available := supplier_data.express_available
    final_score := roundTo 3 final_score
    recommendation_level := recommendationLevelCLI final_score }

/-- Models `SupplierRecommender.recommend_suppliers` of the interactive CLI
program (`src/supplier_recommendation.py:159-272`). -/
def recommend_suppliersCLI (st : SystemState) (product_type urgency : String)
    (quantity : ℤ) (budget : ℚ) : Except CoreError RecommendationResult :=
  if urgency ∉ valid_urgencies then
    .error (.invalidUrgency valid_urgencies)
  else
    let available_products := st.df.filter (fun r => r.product_type == product_type)
    if available_products.isEmpty then
      .error (.productNotFound (uniqueFirst (st.df.map (·.product_type))))
    else
      let recommendations :=
        List.insertionSort recLE
          ((firstRowsByName available_products).map
            (mkRecommendationCLI st product_type urgency quantity budget))
      .ok { product_type := product_type, urgency := urgency,
            quantity := quantity, budget := budget,
            recommendations := recommendations,
            total_options := recommendations.length }

/-! ### Helper views of the per-supplier computation

The following definitions are not separate source functions: each names a
subterm of `mkRecommendation` (resp. `mkRecommendationCLI`) so that lemmas
can speak about the intermediate values the source holds in local
variables (`probability`, `total_cost`, `final_score`). -/

/-- The classifier probability extracted for a supplier
(`model_handler.py:114-120`), before any rounding. -/
def classifierProbability (st : SystemState) (product_type urgency : String)
    (quantity : ℤ) (budget : ℚ) (supplier_data : SupplierRow) : ℚ :=
  match st.target_classes.findIdx? (fun c => c == supplier_data.supplier_name) with
  | some i =>
      (st.predict_proba (reorderColumns st.feature_names
        (applyEncoders st.label_encoders
          (buildInput product_type urgency quantity budget supplier_data st.month)))).getD i 0
  | none => 0

/-- The `total_cost` local variable (`model_handler.py:122-125`), before
the 2-decimal rounding applied when it is stored. -/
def rawTotalCost (supplier_data : SupplierRow) (quantity : ℤ) : ℚ :=
  supplier_data.price_usd * (quantity : ℚ) +
    (if supplier_data.shipping_included then 0 else 300)

/-- The `final_score` local variable (`model_handler.py:143-154`), before
the 3-decimal rounding applied when it is stored: the weighted blend of
the (already rounded) probability score and the four business sub-scores. -/
def rawFinalScore (probability_score quality_rating : ℚ) (within_budget : Bool)
    (delivery_days payment_terms_days : ℤ) : ℚ :=
  probability_score * 0.4 + (quality_rating / 5) * 0.25 +
    (if within_budget then (1 : ℚ) else 0.5) * 0.2 +
    (if delivery_days ≤ 15 then (1 : ℚ) else 0.7) * 0.1 +
    (if payment_terms_days > 0 then (1 : ℚ) else 0.8) * 0.05

/-- The function `mkRecommendation` unfolded to the helper views (definitional). -/
lemma mkRecommendation_eq (st : SystemState) (product_type urgency : String)
    (quantity : ℤ) (budget : ℚ) (supplier_data : SupplierRow) :
    mkRecommendation st product_type urgency quantity budget supplier_data =
      { supplier_name := supplier_data.supplier_name
        country := supplier_data.country
        quality_rating := supplier_data.quality_rating
        price_usd := supplier_data.price_usd
        total_cost := roundTo 2 (rawTotalCost supplier_data quantity)
        delivery_days := supplier_data.delivery_days
        payment_terms_days := supplier_data.payment_terms_days
        probability_score :=
          roundTo 3 (classifierProbability st product_type urgency quantity budget supplier_data)
        within_budget := decide (rawTotalCost supplier_data quantity ≤ budget)
        shipping_included := supplier_data.shipping_included
        express_available := supplier_data.express_available
        final_score :=
          roundTo 3 (rawFinalScore
            (roundTo 3 (classifierProbability st product_type urgency quantity budget supplier_data))
            supplier_data.quality_rating
            (decide (rawTotalCost supplier_data quantity ≤ budget))
            supplier_data.delivery_days supplier_data.payment_terms_days)
        recommendation_level :=
          recommendationLevel (rawFinalScore
            (roundTo 3 (classifierProbability st product_type urgency quantity budget supplier_data))
            supplier_data.quality_rating
            (decide (rawTotalCost supplier_data quantity ≤ budget))
            supplier_data.delivery_days supplier_data.payment_terms_days) } := rfl

/-- The function `mkRecommendationCLI` unfolded to the helper views (definitional). -/
lemma mkRecommendationCLI_eq (st : SystemState) (product_type urgency : String)
    (quantity : ℤ) (budget : ℚ) (supplier_data : SupplierRow) :
    mkRecommendationCLI st product_type urgency quantity budget supplier_data =
      { mkRecommendation st product_type urgency quantity budget supplier_data with
        recommendation_level :=
          recommendationLevelCLI (rawFinalScore
            (roundTo 3 (classifierProbability st product_type urgency quantity budget supplier_data))
            supplier_data.quality_rating
            (decide (rawTotalCost supplier_data quantity ≤ budget))
            supplier_data.delivery_days supplier_data.payment_terms_days) } := rfl

/-! ### Arithmetic lemmas about `roundTo` -/

lemma ratFloor_eq_intFloor (q : ℚ) : (Rat.floor q : ℤ) = ⌊q⌋ := by
  rw [Rat.floor_def, Rat.floor_def']

lemma roundTo_eq_floor (d : ℕ) (x : ℚ) :
    roundTo d x = ((⌊x * 10 ^ d + 1 / 2⌋ : ℤ) : ℚ) / 10 ^ d := by
  rw [roundTo, ratFloor_eq_intFloor]

lemma roundTo_mono {d : ℕ} {x y : ℚ} (h : x ≤ y) : roundTo d x ≤ roundTo d y := by
  rw [roundTo_eq_floor, roundTo_eq_floor]
  have hp : (0 : ℚ) < 10 ^ d := by positivity
  have hfl : (⌊x * 10 ^ d + 1 / 2⌋ : ℤ) ≤ ⌊y * 10 ^ d + 1 / 2⌋ := by
    apply Int.floor_le_floor
    have := mul_le_mul_of_nonneg_right h (le_of_lt hp)
    linarith
  have hc : ((⌊x * 10 ^ d + 1 / 2⌋ : ℤ) : ℚ) ≤ ((⌊y * 10 ^ d + 1 / 2⌋ : ℤ) : ℚ) := by
    exact_mod_cast hfl
  exact (div_le_div_iff_of_pos_right hp).mpr hc

lemma roundTo_zero (d : ℕ) : roundTo d 0 = 0 := by
  rw [roundTo_eq_floor]
  have : (⌊(0 : ℚ) * 10 ^ d + 1 / 2⌋ : ℤ) = 0 := by
    rw [Int.floor_eq_iff]
    norm_num
  rw [this]
  norm_num

lemma roundTo_one (d : ℕ) : roundTo d 1 = 1 := by
  rw [roundTo_eq_floor]
  have hp : (0 : ℚ) < 10 ^ d := by positivity
  have hfl : (⌊(1 : ℚ) * 10 ^ d + 1 / 2⌋ : ℤ) = 10 ^ d := by
    rw [Int.floor_eq_iff]
    constructor
    · push_cast; linarith
    · push_cast; linarith
  rw [hfl]
  push_cast
  field_simp

lemma roundTo_nonneg {d : ℕ} {x : ℚ} (h : 0 ≤ x) : 0 ≤ roundTo d x := by
  have := roundTo_mono (d := d) h
  rwa [roundTo_zero] at this

lemma roundTo_le_one {d : ℕ} {x : ℚ} (h : x ≤ 1) : roundTo d x ≤ 1 := by
  have := roundTo_mono (d := d) h
  rwa [roundTo_one] at this

/-! ### The tier mapping -/

/-- The tier if-chain is mutually exclusive and exhaustive: every raw score
falls in exactly one of the four guarded bands, and the band determines the
string. -/
lemma recommendationLevel_cases (x : ℚ) :
    (0.75 ≤ x ∧ recommendationLevel x = "Altamente Recomendado") ∨
    (0.6 ≤ x ∧ x < 0.75 ∧ recommendationLevel x = "Recomendado") ∨
    (0.45 ≤ x ∧ x < 0.6 ∧ recommendationLevel x = "Aceptable") ∨
    (x < 0.45 ∧ recommendationLevel x = "No Recomendado") := by
  unfold recommendationLevel
  rcases le_or_lt 0.75 x with h1 | h1
  · left
    simp [ge_iff_le, h1]
  · rcases le_or_lt 0.6 x with h2 | h2
    · right; left
      simp [ge_iff_le, h1.not_le, h2, h1]
    · rcases le_or_lt 0.45 x with h3 | h3
      · right; right; left
        simp [ge_iff_le, h1.not_le, h2.not_le, h3, h2]
      · right; right; right
        simp [ge_iff_le, h1.not_le, h2.not_le, h3.not_le, h3]

/-- The CLI tier string as a relabelling of the microservice tier string. -/
def cliTierLabel (s : String) : String :=
  if s = "Altamente Recomendado" then "⭐⭐⭐ Altamente Recomendado"
  else if s = "Recomendado" then "⭐⭐ Recomendado"
  else if s = "Aceptable" then "⭐ Aceptable"
  else "❌ No Recomendado"

lemma recommendationLevelCLI_eq (x : ℚ) :
    recommendationLevelCLI x = cliTierLabel (recommendationLevel x) := by
  unfold recommendationLevelCLI recommendationLevel cliTierLabel
  split_ifs <;> simp_all

/-! ### Lemmas about the per-product supplier enumeration -/

lemma firstRowsByName_subset (l : List SupplierRow) : firstRowsByName l ⊆ l := by
  induction l using firstRowsByName.induct with
  | case1 => simp [firstRowsByName]
  | case2 r rs ih =>
    rw [firstRowsByName]
    intro x hx
    rcases List.mem_cons.mp hx with h | h
    · simp [h]
    · exact List.mem_cons_of_mem _ (List.mem_of_mem_filter (ih h))

lemma uniqueFirst_subset (l : List String) : uniqueFirst l ⊆ l := by
  induction l using uniqueFirst.induct with
  | case1 => simp [uniqueFirst]
  | case2 s rest ih =>
    rw [uniqueFirst]
    intro x hx
    rcases List.mem_cons.mp hx with h | h
    · simp [h]
    · exact List.mem_cons_of_mem _ (List.mem_of_mem_filter (ih h))

lemma map_supplier_name_filter (rs : List SupplierRow) (s : String) :
    (rs.filter (fun x => x.supplier_name != s)).map (·.supplier_name) =
      (rs.map (·.supplier_name)).filter (fun x => x != s) := by
  induction rs with
  | nil => rfl
  | cons a t ih =>
    by_cases h : a.supplier_name = s <;>
      simp [List.filter_cons, h, ih]

lemma map_name_firstRowsByName (l : List SupplierRow) :
    (firstRowsByName l).map (·.supplier_name) = uniqueFirst (l.map (·.supplier_name)) := by
  induction l using firstRowsByName.induct with
  | case1 => simp [firstRowsByName, uniqueFirst]
  | case2 r rs ih =>
    rw [firstRowsByName]
    simp only [List.map_cons]
    rw [uniqueFirst, ih, map_supplier_name_filter]

lemma nodup_uniqueFirst (l : List String) : (uniqueFirst l).Nodup := by
  induction l using uniqueFirst.induct with
  | case1 => simp [uniqueFirst]
  | case2 s rest ih =>
    rw [uniqueFirst]
    refine List.nodup_cons.mpr ⟨fun hmem => ?_, ih⟩
    have := uniqueFirst_subset _ hmem
    simp [List.mem_filter] at this

lemma find?_filter_of_name_ne (rs : List SupplierRow) (s t : String) (hst : s ≠ t) :
    (rs.filter (fun y => y.supplier_name != t)).find? (fun y => y.supplier_name == s) =
      rs.find? (fun y => y.supplier_name == s) := by
  induction rs with
  | nil => rfl
  | cons a rest ih =>
    by_cases hat : a.supplier_name = t
    · have has : (a.supplier_name == s) = false := by
        simp only [beq_eq_false_iff_ne, ne_eq, hat]
        exact fun hh => hst hh.symm
      rw [List.filter_cons, if_neg (by simp [hat]), ih, List.find?_cons]
      simp [has]
    · have hfil : (a.supplier_name != t) = true := by simp [hat]
      rw [List.filter_cons, if_pos hfil, List.find?_cons, List.find?_cons]
      by_cases has : (a.supplier_name == s) = true <;> simp [has, ih]

lemma find?_mem_firstRowsByName (l : List SupplierRow) (x : SupplierRow) (hx : x ∈ l) :
    ∃ row, l.find? (fun y => y.supplier_name == x.supplier_name) = some row ∧
      row ∈ firstRowsByName l ∧ row.supplier_name = x.supplier_name := by
  induction l using firstRowsByName.induct with
  | case1 => simp at hx
  | case2 r rs ih =>
    by_cases h : r.supplier_name = x.supplier_name
    · refine ⟨r, ?_, ?_, h⟩
      · simp [List.find?_cons, h]
      · rw [firstRowsByName]; simp
    · have hxrs : x ∈ rs := by
        rcases List.mem_cons.mp hx with h' | h'
        · exact absurd (h' ▸ rfl) h
        · exact h'
      have hxf : x ∈ rs.filter (fun y => y.supplier_name != r.supplier_name) := by
        refine List.mem_filter.mpr ⟨hxrs, ?_⟩
        simp only [bne_iff_ne, ne_eq]
        exact fun hh => h hh.symm
      obtain ⟨row, hfind, hmem, hname⟩ := ih hxf
      refine ⟨row, ?_, ?_, hname⟩
      · have hbeq : (r.supplier_name == x.supplier_name) = false := by
          simp only [beq_eq_false_iff_ne, ne_eq]
          exact h
        rw [List.find?_cons]
        simp only [hbeq]
        rw [← find?_filter_of_name_ne rs x.supplier_name r.supplier_name
          (fun hh => h hh.symm)]
        exact hfind
      · rw [firstRowsByName]
        exact List.mem_cons_of_mem _ hmem

/-! ### Lemmas about the final sort -/

/-- Elements skipped past by `orderedInsert` have strictly greater score
than the inserted element, so inserting never reorders equal-score
entries: the equal-score sublists of `orderedInsert recLE a l` and of
`a :: l` coincide. -/
lemma filter_score_orderedInsert (q : ℚ) (a : Recommendation)
    (l : List Recommendation) :
    (List.orderedInsert recLE a l).filter (fun r => decide (r.final_score = q)) =
      ((a :: l).filter (fun r => decide (r.final_score = q))) := by
  induction l with
  | nil => rfl
  | cons y ys ih =>
    rw [List.orderedInsert]
    split_ifs with h
    · rfl
    · have hay : a.final_score < y.final_score := by
        have := not_le.mp (by simpa [recLE] using h)
        exact this
      by_cases ha : a.final_score = q
      · have hy : ¬ (y.final_score = q) := fun hq => by
          rw [ha] at hay
          rw [hq] at hay
          exact lt_irrefl q hay
        simp [List.filter_cons, ha, hy, ih]
      · by_cases hy : y.final_score = q <;>
          simp [List.filter_cons, ha, hy, ih]

/-- The stable sort preserves each equal-score sublist. -/
lemma filter_score_insertionSort (q : ℚ) (l : List Recommendation) :
    (List.insertionSort recLE l).filter (fun r => decide (r.final_score = q)) =
      l.filter (fun r => decide (r.final_score = q)) := by
  induction l with
  | nil => rfl
  | cons a t ih =>
    rw [List.insertionSort, filter_score_orderedInsert]
    by_cases ha : a.final_score = q <;>
      simp [List.filter_cons, ha, ih]

/-! ### Inversion of `recommend_suppliers` -/

/-- The pre-sort recommendation list: the loop accumulator at
`model_handler.py:81-168`, one entry per distinct supplier name in
catalog first-occurrence order. -/
def baseRecommendations (st : SystemState) (product_type urgency : String)
    (quantity : ℤ) (budget : ℚ) : List Recommendation :=
  (firstRowsByName (st.df.filter (fun r => r.product_type == product_type))).map
    (mkRecommendation st product_type urgency quantity budget)

lemma recommend_suppliers_ok_iff (st : SystemState) (product_type urgency : String)
    (quantity : ℤ) (budget : ℚ) (res : RecommendationResult) :
    recommend_suppliers st product_type urgency quantity budget = .ok res ↔
      urgency ∈ valid_urgencies ∧
      st.df.filter (fun r => r.product_type == product_type) ≠ [] ∧
      res = { product_type := product_type, urgency := urgency,
              quantity := quantity, budget := budget,
              recommendations :=
                List.insertionSort recLE
                  (baseRecommendations st product_type urgency quantity budget),
              total_options :=
                (List.insertionSort recLE
                  (baseRecommendations st product_type urgency quantity budget)).length } := by
  unfold recommend_suppliers baseRecommendations
  by_cases h1 : urgency ∉ valid_urgencies
  · rw [if_pos h1]
    constructor
    · intro h; simp at h
    · rintro ⟨h2, -, -⟩; exact absurd h2 h1
  · rw [if_neg h1]
    push_neg at h1
    by_cases h2 : (st.df.filter (fun r => r.product_type == product_type)).isEmpty
    · simp only [h2, if_true]
      constructor
      · intro h; simp at h
      · rintro ⟨-, h3, -⟩
        exact absurd (List.isEmpty_iff.mp h2) h3
    · simp only [h2, if_false]
      constructor
      · intro h
        refine ⟨h1, fun hnil => ?_, ?_⟩
        · rw [List.isEmpty_iff.mpr hnil] at h2
          exact h2 rfl
        · injection h with h3
          exact h3.symm
      · rintro ⟨-, -, rfl⟩
        rfl

/-- Every entry of a successful result arises from the first catalog row
of some distinct supplier name. -/
lemma mem_recommendations (st : SystemState) (product_type urgency : String)
    (quantity : ℤ) (budget : ℚ) (res : RecommendationResult) (rec : Recommendation)
    (h : recommend_suppliers st product_type urgency quantity budget = .ok res)
    (hm : rec ∈ res.recommendations) :
    ∃ row, row ∈ firstRowsByName (st.df.filter (fun r => r.product_type == product_type)) ∧
      rec = mkRecommendation st product_type urgency quantity budget row := by
  obtain ⟨-, -, rfl⟩ := (recommend_suppliers_ok_iff st product_type urgency
    quantity budget res).mp h
  have hperm := (List.perm_insertionSort recLE
    (baseRecommendations st product_type urgency quantity budget)).mem_iff.mp hm
  obtain ⟨row, hrow, hrec⟩ := List.mem_map.mp hperm
  exact ⟨row, hrow, hrec.symm⟩

/-! ### Lemmas about encoding and the classifier probability -/

lemma transform_of_not_mem (enc : LabelEncoder) (value : String)
    (h : value ∉ enc.classes) : enc.transform value = 0 := by
  unfold LabelEncoder.transform
  rw [List.findIdx?_eq_none_iff.mpr]
  intro x hx
  simp only [beq_eq_false_iff_ne, ne_eq]
  exact fun hh => h (hh ▸ hx)

lemma lookup_applyEncoders (label_encoders : List (String × LabelEncoder))
    (input_data : List (String × Feat)) (f : String) (enc : LabelEncoder) (v : Feat)
    (he : label_encoders.lookup f = some enc) (hv : input_data.lookup f = some v) :
    (applyEncoders label_encoders input_data).lookup f =
      some (Feat.num (enc.transform (featStr v))) := by
  induction input_data with
  | nil => simp at hv
  | cons c t ih =>
    obtain ⟨k, w⟩ := c
    unfold applyEncoders
    by_cases hk : f = k
    · subst hk
      rw [List.lookup_cons_self] at hv
      injection hv with hv
      subst hv
      simp only [List.map_cons]
      cases hlk : label_encoders.lookup f with
      | none => rw [hlk] at he; exact absurd he (by simp)
      | some e =>
        rw [hlk] at he
        injection he with he
        subst he
        simp [List.lookup_cons_self]
    · have hbeq : (f == k) = false := by simp [hk]
      rw [List.lookup_cons, hbeq] at hv
      simp only [List.map_cons]
      cases hlk : label_encoders.lookup k with
      | none =>
        rw [List.lookup_cons]
        simp only [hbeq]
        exact ih hv
      | some e =>
        rw [List.lookup_cons]
        simp only [hbeq]
        exact ih hv

lemma classifierProbability_of_not_mem (st : SystemState)
    (product_type urgency : String) (quantity : ℤ) (budget : ℚ)
    (supplier_data : SupplierRow)
    (h : supplier_data.supplier_name ∉ st.target_classes) :
    classifierProbability st product_type urgency quantity budget supplier_data = 0 := by
  unfold classifierProbability
  rw [List.findIdx?_eq_none_iff.mpr]
  intro x hx
  simp only [beq_eq_false_iff_ne, ne_eq]
  exact fun hh => h (hh ▸ hx)

lemma classifierProbability_mem_bounds (st : SystemState)
    (product_type urgency : String) (quantity : ℤ) (budget : ℚ)
    (supplier_data : SupplierRow)
    (hp : ∀ v, ∀ x ∈ st.predict_proba v, 0 ≤ x ∧ x ≤ 1) :
    0 ≤ classifierProbability st product_type urgency quantity budget supplier_data ∧
      classifierProbability st product_type urgency quantity budget supplier_data ≤ 1 := by
  unfold classifierProbability
  cases hidx : st.target_classes.findIdx? (fun c => c == supplier_data.supplier_name) with
  | none => norm_num
  | some i =>
    have hgoal : ∀ l : List ℚ, (∀ x ∈ l, 0 ≤ x ∧ x ≤ 1) →
        0 ≤ l.getD i 0 ∧ l.getD i 0 ≤ 1 := by
      intro l hl
      rw [List.getD_eq_getElem?_getD]
      cases hget : l[i]? with
      | none => norm_num
      | some x => simpa using hl x (List.getElem?_mem hget)
    exact hgoal _ (hp _)

/-! ### Bounds on the blended score -/

lemma rawFinalScore_bounds (ps qr : ℚ) (wb : Bool) (dd pt : ℤ)
    (hps0 : 0 ≤ ps) (hps1 : ps ≤ 1) (hqr0 : 0 ≤ qr) (hqr1 : qr ≤ 5) :
    0 ≤ rawFinalScore ps qr wb dd pt ∧ rawFinalScore ps qr wb dd pt ≤ 1 := by
  unfold rawFinalScore
  have hq0 : 0 ≤ qr / 5 := by positivity
  have hq1 : qr / 5 ≤ 1 := by linarith
  split_ifs <;> constructor <;> nlinarith

/-! ### Error paths of the core and of the endpoint -/

lemma recommend_suppliers_invalidUrgency (st : SystemState)
    (product_type urgency : String) (quantity : ℤ) (budget : ℚ)
    (h : urgency ∉ valid_urgencies) :
    recommend_suppliers st product_type urgency quantity budget =
      .error (.invalidUrgency valid_urgencies) := by
  unfold recommend_suppliers
  rw [if_pos h]

lemma recommend_suppliers_notFound (st : SystemState)
    (product_type urgency : String) (quantity : ℤ) (budget : ℚ)
    (h1 : urgency ∈ valid_urgencies)
    (h2 : st.df.filter (fun r => r.product_type == product_type) = []) :
    recommend_suppliers st product_type urgency quantity budget =
      .error (.productNotFound (uniqueFirst (st.df.map (·.product_type)))) := by
  unfold recommend_suppliers
  rw [if_neg (not_not_intro h1)]
  simp only [h2, List.isEmpty_nil, if_true]

lemma recommend_suppliers_isOk (st : SystemState)
    (product_type urgency : String) (quantity : ℤ) (budget : ℚ)
    (h1 : urgency ∈ valid_urgencies)
    (h2 : st.df.filter (fun r => r.product_type == product_type) ≠ []) :
    ∃ res, recommend_suppliers st product_type urgency quantity budget = .ok res := by
  refine ⟨_, (recommend_suppliers_ok_iff st product_type urgency quantity budget _).mpr
    ⟨h1, h2, rfl⟩⟩

/-! ### Relating the CLI copy to the microservice copy -/

/-- Rewrites a microservice tier string to the CLI's emoji-prefixed one,
leaving every other field alone. -/
def relabelCLI (rec : Recommendation) : Recommendation :=
  { rec with recommendation_level := cliTierLabel rec.recommendation_level }

lemma mkRecommendationCLI_relabel (st : SystemState) (product_type urgency : String)
    (quantity : ℤ) (budget : ℚ) (supplier_data : SupplierRow) :
    mkRecommendationCLI st product_type urgency quantity budget supplier_data =
      relabelCLI (mkRecommendation st product_type urgency quantity budget supplier_data) := by
  rw [mkRecommendationCLI_eq, mkRecommendation_eq, relabelCLI]
  simp [recommendationLevelCLI_eq]

/-! ### Concrete artifacts used by witnesses and counterexamples

`exState` is a one-row catalog whose classifier reports probability
0.37365 for the only supplier. All sub-scores are at their maxima, so the
unrounded blend is 0.4·0.374 + 0.6 = 0.7496, which rounds to 0.750 while
the tier test sees 0.7496 < 0.75. -/

def exRow : SupplierRow :=
  { product_type := "valve_butterfly", supplier_name := "Acme Valves",
    country := "Peru", quality_rating := 5, price_usd := 100,
    delivery_days := 10, payment_terms_days := 30,
    shipping_included := true, express_available := false, incoterms := "FOB" }

def exState : SystemState :=
  { df := [exRow], label_encoders := [], target_classes := ["Acme Valves"],
    feature_names := [], predict_proba := fun _ => [37365 / 100000], month := 5 }

/-- A row whose price has four decimal places: 33.3351 · 3 = 100.0053,
whose 2-decimal rounding 100.01 differs from the raw product. -/
def exRowB : SupplierRow :=
  { product_type := "filter_cloth_roll", supplier_name := "Beta Textil",
    country := "Chile", quality_rating := 4, price_usd := 333351 / 10000,
    delivery_days := 20, payment_terms_days := 0,
    shipping_included := true, express_available := true, incoterms := "CIF" }

/-- State for the unrounded/rounded `total_cost` comparison; the supplier
is unknown to the classifier (`target_classes` empty). -/
def exStateB : SystemState :=
  { df := [exRowB], label_encoders := [], target_classes := [],
    feature_names := [], predict_proba := fun _ => [], month := 11 }

/-- An encoder that knows only the urgencies "High" and "Low". -/
def exEncoder : LabelEncoder := { classes := ["High", "Low"] }

/-- State whose `order_urgency` encoder does not know "Critical". -/
def exStateC : SystemState :=
  { df := [exRow], label_encoders := [("order_urgency", exEncoder)],
    target_classes := ["Acme Valves"],
    feature_names := ["order_urgency"], predict_proba := fun _ => [1 / 2], month := 2 }

def emptyRec : Recommendation :=
  { supplier_name := "", country := "", quality_rating := 0, price_usd := 0,
    total_cost := 0, delivery_days := 0, payment_terms_days := 0,
    probability_score := 0, within_budget := false, shipping_included := false,
    express_available := false, final_score := 0, recommendation_level := "" }

def emptyResult : RecommendationResult :=
  { product_type := "", urgency := "", quantity := 0, budget := 0,
    recommendations := [], total_options := 0 }

/-- Projection used to name the concrete successful results below. -/
def getOk (x : Except CoreError RecommendationResult) : RecommendationResult :=
  match x with
  | .ok r => r
  | .error _ => emptyResult

def exOut : RecommendationResult :=
  getOk (recommend_suppliers exState "valve_butterfly" "Low" 1 1000)

def exRec : Recommendation := exOut.recommendations.getD 0 emptyRec

def exOutB : RecommendationResult :=
  getOk (recommend_suppliers exStateB "filter_cloth_roll" "Medium" 3 5000)

def exRecB : Recommendation := exOutB.recommendations.getD 0 emptyRec

def exOutC : RecommendationResult :=
  getOk (recommend_suppliers exStateC "valve_butterfly" "Critical" 2 50)

def exRecC : Recommendation := exOutC.recommendations.getD 0 emptyRec

/-! ## Claims -/

/-- C1, counterexample: with classifier probability 0.37365 (all business
sub-scores maximal), the code reports final_score 0.750, while the claimed
formula — the weighted blend of the *unrounded* classifier probability,
rounded once at the end — yields 0.749. The code first rounds the
probability to 0.374 and blends that. -/
theorem c1_counterexample :
    recommend_suppliers exState "valve_butterfly" "Low" 1 1000 = .ok exOut ∧
    exState.predict_proba [] = [37365 / 100000] ∧
    exState.target_classes = ["Acme Valves"] ∧
    exOut.recommendations.map (fun r =>
      (r.supplier_name, r.final_score, r.quality_rating, r.within_budget,
        r.delivery_days, r.payment_terms_days)) =
      [("Acme Valves", 3 / 4, 5, true, 10, 30)] ∧
    roundTo 3 ((37365 / 100000 : ℚ) * 0.4 + (5 / 5) * 0.25 + 1 * 0.2 +
      1 * 0.1 + 1 * 0.05) = 749 / 1000 ∧
    (3 / 4 : ℚ) ≠ 749 / 1000 := by
  refine ⟨?_, ?_, ?_, ?_, ?_, ?_⟩
  · with_unfolding_all rfl
  · with_unfolding_all rfl
  · rfl
  · with_unfolding_all rfl
  · with_unfolding_all rfl
  · norm_num

/-- C1, amended: every reported final_score is the 3-decimal rounding of
0.4·probability_score + 0.25·(quality_rating/5) + 0.2·price_score +
0.1·delivery_score + 0.05·payment_score, where probability_score is the
*reported* (already 3-decimal-rounded) classifier probability, not the raw
one; the sub-scores are exactly as the claim defines them. -/
theorem c1_amended (st : SystemState) (product_type urgency : String)
    (quantity : ℤ) (budget : ℚ) (res : RecommendationResult) (rec : Recommendation)
    (h : recommend_suppliers st product_type urgency quantity budget = .ok res)
    (hm : rec ∈ res.recommendations) :
    rec.final_score = roundTo 3 (rec.probability_score * 0.4 +
      (rec.quality_rating / 5) * 0.25 +
      (if rec.within_budget then (1 : ℚ) else 0.5) * 0.2 +
      (if rec.delivery_days ≤ 15 then (1 : ℚ) else 0.7) * 0.1 +
      (if rec.payment_terms_days > 0 then (1 : ℚ) else 0.8) * 0.05) := by
  obtain ⟨row, hrow, rfl⟩ :=
    mem_recommendations st product_type urgency quantity budget res rec h hm
  rw [mkRecommendation_eq]
  rfl

/-- C1, witness: the amended equation evaluated on the concrete state. -/
theorem c1_witness :
    exRec.final_score = roundTo 3 (exRec.probability_score * 0.4 +
      (exRec.quality_rating / 5) * 0.25 +
      (if exRec.within_budget then (1 : ℚ) else 0.5) * 0.2 +
      (if exRec.delivery_days ≤ 15 then (1 : ℚ) else 0.7) * 0.1 +
      (if exRec.payment_terms_days > 0 then (1 : ℚ) else 0.8) * 0.05) :=
  c1_amended exState "valve_butterfly" "Low" 1 1000 exOut exRec
    (by with_unfolding_all rfl)
    (by with_unfolding_all exact of_decide_eq_true rfl)

/-- C2, counterexample: the reported final_score 0.750 meets the claimed
top threshold 0.75, but the assigned tier is the second one, because the
source applies the thresholds to the unrounded score 0.7496. -/
theorem c2_counterexample :
    recommend_suppliers exState "valve_butterfly" "Low" 1 1000 = .ok exOut ∧
    exOut.recommendations.map (fun r => (r.final_score, r.recommendation_level)) =
      [(3 / 4, "Recomendado")] ∧
    ((3 : ℚ) / 4 ≥ 0.75) ∧
    "Recomendado" ≠ "Altamente Recomendado" := by
  refine ⟨?_, ?_, ?_, ?_⟩
  · with_unfolding_all rfl
  · with_unfolding_all rfl
  · norm_num
  · decide

/-- C2, amended: for every output entry there is an underlying raw
(pre-rounding) score such that the reported final_score is its 3-decimal
rounding and the recommendation_level is produced from the *raw* score by
the mutually exclusive, exhaustive threshold chain 0.75 / 0.6 / 0.45
evaluated high to low; the thresholds are not applied to the reported
(rounded) score, which can disagree at band boundaries. -/
theorem c2_amended (st : SystemState) (product_type urgency : String)
    (quantity : ℤ) (budget : ℚ) (res : RecommendationResult)
    (h : recommend_suppliers st product_type urgency quantity budget = .ok res) :
    ∀ rec ∈ res.recommendations, ∃ raw : ℚ,
      rec.final_score = roundTo 3 raw ∧
      rec.recommendation_level = recommendationLevel raw ∧
      ((0.75 ≤ raw ∧ rec.recommendation_level = "Altamente Recomendado") ∨
       (0.6 ≤ raw ∧ raw < 0.75 ∧ rec.recommendation_level = "Recomendado") ∨
       (0.45 ≤ raw ∧ raw < 0.6 ∧ rec.recommendation_level = "Aceptable") ∨
       (raw < 0.45 ∧ rec.recommendation_level = "No Recomendado")) := by
  intro rec hm
  obtain ⟨row, hrow, rfl⟩ :=
    mem_recommendations st product_type urgency quantity budget res rec h hm
  rw [mkRecommendation_eq]
  refine ⟨rawFinalScore
    (roundTo 3 (classifierProbability st product_type urgency quantity budget row))
    row.quality_rating
    (decide (rawTotalCost row quantity ≤ budget))
    row.delivery_days row.payment_terms_days, rfl, rfl, ?_⟩
  exact recommendationLevel_cases _

/-- C2, witness: the amended statement evaluated on the concrete state. -/
theorem c2_witness :
    ∃ raw : ℚ,
      exRec.final_score = roundTo 3 raw ∧
      exRec.recommendation_level = recommendationLevel raw ∧
      ((0.75 ≤ raw ∧ exRec.recommendation_level = "Altamente Recomendado") ∨
       (0.6 ≤ raw ∧ raw < 0.75 ∧ exRec.recommendation_level = "Recomendado") ∨
       (0.45 ≤ raw ∧ raw < 0.6 ∧ exRec.recommendation_level = "Aceptable") ∨
       (raw < 0.45 ∧ exRec.recommendation_level = "No Recomendado")) :=
  c2_amended exState "valve_butterfly" "Low" 1 1000 exOut
    (by with_unfolding_all rfl) exRec
    (by with_unfolding_all exact of_decide_eq_true rfl)

/-- C3: the `/recommend` endpoint errors exactly on invalid requests:
a validation error (bad urgency, quantity ≤ 0, budget ≤ 0) or, once
validations pass, a not-found error listing the available product types
when no catalog row matches; every request passing all checks yields a
recommendation result. -/
theorem c3_error_iff_invalid (st : SystemState) (product_type urgency : String)
    (quantity : ℤ) (budget : ℚ) :
    ((∃ e, api_recommend st product_type urgency quantity budget = .error e) ↔
      (urgency ∉ valid_urgencies ∨ quantity ≤ 0 ∨ budget ≤ 0 ∨
        st.df.filter (fun r => r.product_type == product_type) = [])) ∧
    (urgency ∉ valid_urgencies ∨ quantity ≤ 0 ∨ budget ≤ 0 →
      ∃ e, api_recommend st product_type urgency quantity budget = .error e ∧
        (e = .badUrgency valid_urgencies ∨ e = .badQuantity ∨ e = .badBudget)) ∧
    (urgency ∈ valid_urgencies → 0 < quantity → 0 < budget →
      st.df.filter (fun r => r.product_type == product_type) = [] →
      api_recommend st product_type urgency quantity budget =
        .error (.fromCore (.productNotFound
          (uniqueFirst (st.df.map (·.product_type)))))) ∧
    (urgency ∈ valid_urgencies → 0 < quantity → 0 < budget →
      st.df.filter (fun r => r.product_type == product_type) ≠ [] →
      ∃ res, api_recommend st product_type urgency quantity budget = .ok res) := by
  by_cases h1 : urgency ∉ valid_urgencies
  · have happ : api_recommend st product_type urgency quantity budget =
        .error (.badUrgency valid_urgencies) := by
      unfold api_recommend
      rw [if_pos h1]
    exact ⟨⟨fun _ => Or.inl h1, fun _ => ⟨_, happ⟩⟩,
      fun _ => ⟨_, happ, Or.inl rfl⟩,
      fun hu => absurd hu h1,
      fun hu => absurd hu h1⟩
  · push_neg at h1
    by_cases h2 : quantity ≤ 0
    · have happ : api_recommend st product_type urgency quantity budget =
          .error .badQuantity := by
        unfold api_recommend
        rw [if_neg (not_not_intro h1), if_pos h2]
      exact ⟨⟨fun _ => Or.inr (Or.inl h2), fun _ => ⟨_, happ⟩⟩,
        fun _ => ⟨_, happ, Or.inr (Or.inl rfl)⟩,
        fun _ hq => absurd h2 (not_le.mpr hq),
        fun _ hq => absurd h2 (not_le.mpr hq)⟩
    · by_cases h3 : budget ≤ 0
      · have happ : api_recommend st product_type urgency quantity budget =
            .error .badBudget := by
          unfold api_recommend
          rw [if_neg (not_not_intro h1), if_neg h2, if_pos h3]
        exact ⟨⟨fun _ => Or.inr (Or.inr (Or.inl h3)), fun _ => ⟨_, happ⟩⟩,
          fun _ => ⟨_, happ, Or.inr (Or.inr rfl)⟩,
          fun _ _ hb => absurd h3 (not_le.mpr hb),
          fun _ _ hb => absurd h3 (not_le.mpr hb)⟩
      · by_cases h4 : st.df.filter (fun r => r.product_type == product_type) = []
        · have happ : api_recommend st product_type urgency quantity budget =
              .error (.fromCore (.productNotFound
                (uniqueFirst (st.df.map (·.product_type))))) := by
            unfold api_recommend
            rw [if_neg (not_not_intro h1), if_neg h2, if_neg h3,
              recommend_suppliers_notFound st product_type urgency quantity budget h1 h4]
          refine ⟨⟨fun _ => Or.inr (Or.inr (Or.inr h4)), fun _ => ⟨_, happ⟩⟩, ?_,
            fun _ _ _ _ => happ, fun _ _ _ hne => absurd h4 hne⟩
          rintro (hbad | hbad | hbad)
          · exact absurd h1 hbad
          · exact absurd hbad h2
          · exact absurd hbad h3
        · obtain ⟨res, hres⟩ :=
            recommend_suppliers_isOk st product_type urgency quantity budget h1 h4
          have happ : api_recommend st product_type urgency quantity budget = .ok res := by
            unfold api_recommend
            rw [if_neg (not_not_intro h1), if_neg h2, if_neg h3, hres]
          refine ⟨⟨?_, ?_⟩, ?_, fun _ _ _ hnil => absurd hnil h4,
            fun _ _ _ _ => ⟨res, happ⟩⟩
          · rintro ⟨e, he⟩
            rw [happ] at he
            cases he
          · rintro (hbad | hbad | hbad | hbad)
            · exact absurd h1 hbad
            · exact absurd hbad h2
            · exact absurd hbad h3
            · exact absurd hbad h4
          · rintro (hbad | hbad | hbad)
            · exact absurd h1 hbad
            · exact absurd hbad h2
            · exact absurd hbad h3

/-- C3, witness: a quantity-0 request fails with a validation error, an
unknown product fails with not-found listing the one available type, and
a fully valid request succeeds. -/
theorem c3_witness :
    (∃ e, api_recommend exState "valve_butterfly" "Low" 0 1000 = .error e ∧
      (e = .badUrgency valid_urgencies ∨ e = .badQuantity ∨ e = .badBudget)) ∧
    api_recommend exState "widget" "Low" 1 1000 =
      .error (.fromCore (.productNotFound ["valve_butterfly"])) ∧
    (∃ res, api_recommend exState "valve_butterfly" "Low" 1 1000 = .ok res) :=
  ⟨(c3_error_iff_invalid exState "valve_butterfly" "Low" 0 1000).2.1
      (Or.inr (Or.inl le_rfl)),
   by
    have h := (c3_error_iff_invalid exState "widget" "Low" 1 1000).2.2.1
      (by decide) (by norm_num) (by norm_num) (by with_unfolding_all rfl)
    with_unfolding_all exact h,
   (c3_error_iff_invalid exState "valve_butterfly" "Low" 1 1000).2.2.2
      (by decide) (by norm_num) (by norm_num)
      (by with_unfolding_all exact of_decide_eq_true rfl)⟩

/-- C4: every successful result is sorted by the reported final_score in
non-increasing order, and for every score value the entries carrying it
appear in exactly the original catalog iteration order (the pre-sort
per-supplier list): Python's stable descending sort. -/
theorem c4_sorted_stable (st : SystemState) (product_type urgency : String)
    (quantity : ℤ) (budget : ℚ) (res : RecommendationResult)
    (h : recommend_suppliers st product_type urgency quantity budget = .ok res) :
    List.Pairwise (fun a b => b.final_score ≤ a.final_score) res.recommendations ∧
    ∀ s : ℚ, res.recommendations.filter (fun r => decide (r.final_score = s)) =
      (baseRecommendations st product_type urgency quantity budget).filter
        (fun r => decide (r.final_score = s)) := by
  obtain ⟨-, -, rfl⟩ :=
    (recommend_suppliers_ok_iff st product_type urgency quantity budget res).mp h
  exact ⟨List.sorted_insertionSort recLE _, fun s => filter_score_insertionSort s _⟩

/-- C4, witness: the sortedness and stability facts on the concrete state. -/
theorem c4_witness :
    List.Pairwise (fun a b => b.final_score ≤ a.final_score) exOut.recommendations ∧
    ∀ s : ℚ, exOut.recommendations.filter (fun r => decide (r.final_score = s)) =
      (baseRecommendations exState "valve_butterfly" "Low" 1 1000).filter
        (fun r => decide (r.final_score = s)) :=
  c4_sorted_stable exState "valve_butterfly" "Low" 1 1000 exOut
    (by with_unfolding_all rfl)

/-- C5, counterexample: with price 33.3351 and quantity 3 (shipping
included), the reported total_cost is the 2-decimal rounding 100.01, not
price_usd × quantity = 100.0053 as the claim states. -/
theorem c5_counterexample :
    recommend_suppliers exStateB "filter_cloth_roll" "Medium" 3 5000 = .ok exOutB ∧
    exOutB.recommendations.map (fun r =>
      (r.total_cost, r.price_usd, r.shipping_included)) =
      [(10001 / 100, 333351 / 10000, true)] ∧
    (10001 / 100 : ℚ) ≠ (333351 / 10000) * 3 := by
  refine ⟨?_, ?_, ?_⟩
  · with_unfolding_all rfl
  · with_unfolding_all rfl
  · norm_num

/-- C5, amended: the *stored* total_cost is the 2-decimal rounding of the
raw cost price_usd·quantity (+300 when shipping is not included), while
within_budget compares the *unrounded* raw cost against the budget; the
raw cost is at least price_usd·quantity with equality exactly when
shipping_included. -/
theorem c5_amended (st : SystemState) (product_type urgency : String)
    (quantity : ℤ) (budget : ℚ) (res : RecommendationResult)
    (h : recommend_suppliers st product_type urgency quantity budget = .ok res) :
    ∀ rec ∈ res.recommendations,
      rec.total_cost = roundTo 2 (rec.price_usd * (quantity : ℚ) +
        (if rec.shipping_included then 0 else 300)) ∧
      (rec.within_budget = true ↔
        rec.price_usd * (quantity : ℚ) +
          (if rec.shipping_included then 0 else 300) ≤ budget) ∧
      rec.price_usd * (quantity : ℚ) ≤
        rec.price_usd * (quantity : ℚ) + (if rec.shipping_included then 0 else 300) ∧
      (rec.price_usd * (quantity : ℚ) + (if rec.shipping_included then 0 else 300) =
          rec.price_usd * (quantity : ℚ) ↔ rec.shipping_included = true) := by
  intro rec hm
  obtain ⟨row, hrow, rfl⟩ :=
    mem_recommendations st product_type urgency quantity budget res rec h hm
  rw [mkRecommendation_eq]
  refine ⟨rfl, ?_, ?_, ?_⟩
  · show decide (rawTotalCost row quantity ≤ budget) = true ↔ _
    rw [decide_eq_true_iff]
    rfl
  · show row.price_usd * (quantity : ℚ) ≤ rawTotalCost row quantity
    unfold rawTotalCost
    split_ifs <;> linarith
  · show rawTotalCost row quantity = row.price_usd * (quantity : ℚ) ↔ _
    unfold rawTotalCost
    split_ifs with hs
    · simp [hs]
    · simp only [Bool.not_eq_true] at hs
      simp only [hs]
      constructor
      · intro hh
        exfalso
        linarith
      · intro hh
        cases hh

/-- C5, witness: the amended cost facts on the concrete state. -/
theorem c5_witness :
    exRecB.total_cost = roundTo 2 (exRecB.price_usd * (3 : ℚ) +
      (if exRecB.shipping_included then 0 else 300)) ∧
    (exRecB.within_budget = true ↔
      exRecB.price_usd * (3 : ℚ) +
        (if exRecB.shipping_included then 0 else 300) ≤ 5000) ∧
    exRecB.price_usd * (3 : ℚ) ≤
      exRecB.price_usd * (3 : ℚ) + (if exRecB.shipping_included then 0 else 300) ∧
    (exRecB.price_usd * (3 : ℚ) + (if exRecB.shipping_included then 0 else 300) =
        exRecB.price_usd * (3 : ℚ) ↔ exRecB.shipping_included = true) :=
  c5_amended exStateB "filter_cloth_roll" "Medium" 3 5000 exOutB
    (by with_unfolding_all rfl) exRecB
    (by
      have hh : exOutB.recommendations = [exRecB] := by with_unfolding_all rfl
      rw [hh]
      exact List.mem_singleton_self _)

/-- C6: if every catalog row has quality_rating in [0, 5] and the
classifier only emits probabilities in [0, 1], then every reported
final_score lies in [0, 1] (weights 0.4+0.25+0.2+0.1+0.05 = 1, each
sub-score in [0, 1], and 3-decimal rounding preserves the interval). -/
theorem c6_final_score_unit_interval (st : SystemState)
    (product_type urgency : String) (quantity : ℤ) (budget : ℚ)
    (res : RecommendationResult)
    (hq : ∀ row ∈ st.df, 0 ≤ row.quality_rating ∧ row.quality_rating ≤ 5)
    (hp : ∀ v, ∀ x ∈ st.predict_proba v, 0 ≤ x ∧ x ≤ 1)
    (h : recommend_suppliers st product_type urgency quantity budget = .ok res) :
    ∀ rec ∈ res.recommendations, 0 ≤ rec.final_score ∧ rec.final_score ≤ 1 := by
  intro rec hm
  obtain ⟨row, hrow, rfl⟩ :=
    mem_recommendations st product_type urgency quantity budget res rec h hm
  have hrowdf : row ∈ st.df :=
    List.mem_of_mem_filter (firstRowsByName_subset _ hrow)
  obtain ⟨hq0, hq1⟩ := hq row hrowdf
  obtain ⟨hp0, hp1⟩ := classifierProbability_mem_bounds st product_type urgency
    quantity budget row hp
  obtain ⟨hr0, hr1⟩ := rawFinalScore_bounds
    (roundTo 3 (classifierProbability st product_type urgency quantity budget row))
    row.quality_rating
    (decide (rawTotalCost row quantity ≤ budget))
    row.delivery_days row.payment_terms_days
    (roundTo_nonneg hp0) (roundTo_le_one hp1) hq0 hq1
  exact ⟨roundTo_nonneg hr0, roundTo_le_one hr1⟩

/-- C6, witness: the unit-interval bound on the concrete state. -/
theorem c6_witness :
    0 ≤ exRec.final_score ∧ exRec.final_score ≤ 1 :=
  c6_final_score_unit_interval exState "valve_butterfly" "Low" 1 1000 exOut
    (by
      intro row hr
      have hdf : exState.df = [exRow] := rfl
      rw [hdf] at hr
      rw [List.mem_singleton.mp hr]
      constructor <;> norm_num [exRow])
    (by
      intro v x hx
      have hpp : exState.predict_proba v = [37365 / 100000] := rfl
      rw [hpp] at hx
      rw [List.mem_singleton.mp hx]
      constructor <;> norm_num)
    (by with_unfolding_all rfl) exRec
    (by
      have hh : exOut.recommendations = [exRec] := by with_unfolding_all rfl
      rw [hh]
      exact List.mem_singleton_self _)

/-- C7: a supplier absent from the classifier's known classes gets
probability 0.0: its entry is still produced in full (it is a member of
the successful result), carries the supplier's name, and reports
probability_score 0. -/
theorem c7_unknown_class_probability_zero (st : SystemState)
    (product_type urgency : String) (quantity : ℤ) (budget : ℚ)
    (res : RecommendationResult) (row : SupplierRow)
    (h : recommend_suppliers st product_type urgency quantity budget = .ok res)
    (hrow : row ∈ firstRowsByName
      (st.df.filter (fun r => r.product_type == product_type)))
    (hcls : row.supplier_name ∉ st.target_classes) :
    mkRecommendation st product_type urgency quantity budget row ∈
      res.recommendations ∧
    (mkRecommendation st product_type urgency quantity budget row).supplier_name =
      row.supplier_name ∧
    (mkRecommendation st product_type urgency quantity budget row).probability_score = 0 := by
  obtain ⟨-, -, rfl⟩ :=
    (recommend_suppliers_ok_iff st product_type urgency quantity budget res).mp h
  refine ⟨?_, rfl, ?_⟩
  · exact (List.perm_insertionSort recLE _).mem_iff.mpr (List.mem_map_of_mem _ hrow)
  · rw [mkRecommendation_eq]
    show roundTo 3 (classifierProbability st product_type urgency quantity budget row) = 0
    rw [classifierProbability_of_not_mem st product_type urgency quantity budget row hcls,
      roundTo_zero]

/-- C7, witness: `exStateB`'s target encoder knows no classes at all, so
its one supplier gets probability_score 0 and still appears in the output. -/
theorem c7_witness :
    mkRecommendation exStateB "filter_cloth_roll" "Medium" 3 5000 exRowB ∈
      exOutB.recommendations ∧
    (mkRecommendation exStateB "filter_cloth_roll" "Medium" 3 5000 exRowB).supplier_name =
      exRowB.supplier_name ∧
    (mkRecommendation exStateB "filter_cloth_roll" "Medium" 3 5000 exRowB).probability_score = 0 :=
  c7_unknown_class_probability_zero exStateB "filter_cloth_roll" "Medium" 3 5000
    exOutB exRowB
    (by with_unfolding_all rfl)
    (by
      have hh : firstRowsByName (exStateB.df.filter
          (fun r => r.product_type == "filter_cloth_roll")) = [exRowB] := by
        with_unfolding_all rfl
      rw [hh]
      exact List.mem_singleton_self _)
    (by
      intro hx
      rw [show exStateB.target_classes = [] from rfl] at hx
      exact List.not_mem_nil _ hx)

/-- C8: an unrecognized categorical value never raises: `transform` falls
back to the sentinel code 0, the encoded column holds `0`, and the whole
per-supplier computation still returns a successful result with one entry
per distinct supplier, whatever the encoders contain. -/
theorem c8_unseen_category_sentinel :
    (∀ (enc : LabelEncoder) (value : String), value ∉ enc.classes →
      enc.transform value = 0) ∧
    (∀ (label_encoders : List (String × LabelEncoder))
      (input_data : List (String × Feat)) (f : String) (enc : LabelEncoder) (v : Feat),
      label_encoders.lookup f = some enc → input_data.lookup f = some v →
      featStr v ∉ enc.classes →
      (applyEncoders label_encoders input_data).lookup f = some (Feat.num 0)) ∧
    (∀ (st : SystemState) (product_type urgency : String) (quantity : ℤ) (budget : ℚ),
      urgency ∈ valid_urgencies →
      st.df.filter (fun r => r.product_type == product_type) ≠ [] →
      ∃ res, recommend_suppliers st product_type urgency quantity budget = .ok res ∧
        res.recommendations.length = (firstRowsByName
          (st.df.filter (fun r => r.product_type == product_type))).length) := by
  refine ⟨transform_of_not_mem, ?_, ?_⟩
  · intro label_encoders input_data f enc v he hv hcls
    rw [lookup_applyEncoders label_encoders input_data f enc v he hv,
      transform_of_not_mem enc _ hcls]
  · intro st product_type urgency quantity budget h1 h2
    obtain ⟨res, hres⟩ :=
      recommend_suppliers_isOk st product_type urgency quantity budget h1 h2
    refine ⟨res, hres, ?_⟩
    obtain ⟨-, -, rfl⟩ :=
      (recommend_suppliers_ok_iff st product_type urgency quantity budget res).mp hres
    show (List.insertionSort recLE _).length = _
    rw [List.length_insertionSort]
    unfold baseRecommendations
    rw [List.length_map]

/-- C8, witness: the urgency "Critical" is unknown to `exStateC`'s
`order_urgency` encoder; it is encoded as the sentinel 0 and the request
still succeeds. -/
theorem c8_witness :
    exEncoder.transform "Critical" = 0 ∧
    (applyEncoders exStateC.label_encoders
      (buildInput "valve_butterfly" "Critical" 2 50 exRow 2)).lookup "order_urgency" =
      some (Feat.num 0) ∧
    (∃ res, recommend_suppliers exStateC "valve_butterfly" "Critical" 2 50 = .ok res ∧
      res.recommendations.length = (firstRowsByName
        (exStateC.df.filter (fun r => r.product_type == "valve_butterfly"))).length) :=
  ⟨c8_unseen_category_sentinel.1 exEncoder "Critical" (by decide),
   c8_unseen_category_sentinel.2.1 exStateC.label_encoders
     (buildInput "valve_butterfly" "Critical" 2 50 exRow 2)
     "order_urgency" exEncoder (.str "Critical")
     (by with_unfolding_all rfl) (by with_unfolding_all rfl) (by decide),
   c8_unseen_category_sentinel.2.2 exStateC "valve_butterfly" "Critical" 2 50
     (by decide) (by with_unfolding_all exact of_decide_eq_true rfl)⟩

/-- C9, counterexample: on identical state and input the CLI and the
microservice return different envelopes: the tier strings differ (the CLI
prefixes them with emoji). -/
theorem c9_counterexample :
    recommend_suppliersCLI exState "valve_butterfly" "Low" 1 1000 ≠
      recommend_suppliers exState "valve_butterfly" "Low" 1 1000 ∧
    (getOk (recommend_suppliersCLI exState "valve_butterfly" "Low" 1 1000)).recommendations.map
      (·.recommendation_level) = ["⭐⭐ Recomendado"] ∧
    exOut.recommendations.map (·.recommendation_level) = ["Recomendado"] := by
  refine ⟨?_, ?_, ?_⟩
  · intro heq
    have hcli : (getOk (recommend_suppliersCLI exState "valve_butterfly" "Low"
        1 1000)).recommendations.map (·.recommendation_level) =
        ["⭐⭐ Recomendado"] := by with_unfolding_all rfl
    have hms : (getOk (recommend_suppliers exState "valve_butterfly" "Low"
        1 1000)).recommendations.map (·.recommendation_level) =
        ["Recomendado"] := by with_unfolding_all rfl
    rw [heq, hms] at hcli
    simp at hcli
  · with_unfolding_all rfl
  · with_unfolding_all rfl

/-- C9, amended: the two entry points agree on everything except the
recommendation_level strings: the CLI result is exactly the microservice
result with each entry's tier string relabelled to its emoji-prefixed CLI
form (same thresholds, same numeric fields, same order, same errors). -/
theorem c9_amended (st : SystemState) (product_type urgency : String)
    (quantity : ℤ) (budget : ℚ) :
    recommend_suppliersCLI st product_type urgency quantity budget =
      Except.map (fun res => { res with
        recommendations := res.recommendations.map relabelCLI })
        (recommend_suppliers st product_type urgency quantity budget) := by
  unfold recommend_suppliersCLI recommend_suppliers
  by_cases h1 : urgency ∉ valid_urgencies
  · rw [if_pos h1, if_pos h1]
    rfl
  · rw [if_neg h1, if_neg h1]
    by_cases h2 : (st.df.filter (fun r => r.product_type == product_type)).isEmpty
    · simp only [h2, if_true]
      rfl
    · simp only [h2, if_false]
      have hbase : (firstRowsByName
          (st.df.filter (fun r => r.product_type == product_type))).map
            (mkRecommendationCLI st product_type urgency quantity budget) =
          ((firstRowsByName
            (st.df.filter (fun r => r.product_type == product_type))).map
              (mkRecommendation st product_type urgency quantity budget)).map relabelCLI := by
        rw [List.map_map]
        exact List.map_congr_left
          (fun row _ => mkRecommendationCLI_relabel st product_type urgency
            quantity budget row)
      have hsort : List.insertionSort recLE
          (((firstRowsByName
            (st.df.filter (fun r => r.product_type == product_type))).map
              (mkRecommendation st product_type urgency quantity budget)).map relabelCLI) =
          (List.insertionSort recLE
            ((firstRowsByName
              (st.df.filter (fun r => r.product_type == product_type))).map
                (mkRecommendation st product_type urgency quantity budget))).map relabelCLI :=
        (List.map_insertionSort recLE recLE relabelCLI _
          (fun _ _ _ _ => Iff.rfl)).symm
      simp only [Except.map, hbase, hsort, List.length_map]
      simp

/-- C10: a successful result has exactly one entry per distinct supplier
name offering the product (names are pairwise distinct in the output and
total_options counts the distinct names), and for every matching catalog
row the entry for its supplier is built from the *first* matching row in
catalog order. -/
theorem c10_one_entry_per_supplier (st : SystemState)
    (product_type urgency : String) (quantity : ℤ) (budget : ℚ)
    (res : RecommendationResult)
    (h : recommend_suppliers st product_type urgency quantity budget = .ok res) :
    (res.recommendations.map (·.supplier_name)).Nodup ∧
    res.total_options = (uniqueFirst ((st.df.filter
      (fun r => r.product_type == product_type)).map (·.supplier_name))).length ∧
    ∀ x ∈ st.df.filter (fun r => r.product_type == product_type),
      ∃ row, (st.df.filter (fun r => r.product_type == product_type)).find?
          (fun y => y.supplier_name == x.supplier_name) = some row ∧
        row.supplier_name = x.supplier_name ∧
        mkRecommendation st product_type urgency quantity budget row ∈
          res.recommendations := by
  obtain ⟨-, -, rfl⟩ :=
    (recommend_suppliers_ok_iff st product_type urgency quantity budget res).mp h
  refine ⟨?_, ?_, ?_⟩
  · have hperm : List.Perm
        ((List.insertionSort recLE
          (baseRecommendations st product_type urgency quantity budget)).map
            (·.supplier_name))
        ((baseRecommendations st product_type urgency quantity budget).map
          (·.supplier_name)) :=
      (List.perm_insertionSort recLE _).map _
    rw [hperm.nodup_iff]
    have hmn : (baseRecommendations st product_type urgency quantity budget).map
        (·.supplier_name) =
        (firstRowsByName (st.df.filter
          (fun r => r.product_type == product_type))).map (·.supplier_name) := by
      unfold baseRecommendations
      rw [List.map_map]
      rfl
    rw [hmn, map_name_firstRowsByName]
    exact nodup_uniqueFirst _
  · show (List.insertionSort recLE
        (baseRecommendations st product_type urgency quantity budget)).length = _
    rw [List.length_insertionSort]
    unfold baseRecommendations
    rw [List.length_map]
    have hlen := congrArg List.length (map_name_firstRowsByName
      (st.df.filter (fun r => r.product_type == product_type)))
    rw [List.length_map] at hlen
    exact hlen
  · intro x hx
    obtain ⟨row, hfind, hmem, hname⟩ := find?_mem_firstRowsByName
      (st.df.filter (fun r => r.product_type == product_type)) x hx
    exact ⟨row, hfind, hname,
      (List.perm_insertionSort recLE _).mem_iff.mpr (List.mem_map_of_mem _ hmem)⟩

/-- C10, witness: the distinctness, count and first-row facts on the
concrete state. -/
theorem c10_witness :
    (exOut.recommendations.map (·.supplier_name)).Nodup ∧
    exOut.total_options = (uniqueFirst ((exState.df.filter
      (fun r => r.product_type == "valve_butterfly")).map (·.supplier_name))).length ∧
    (∃ row, (exState.df.filter (fun r => r.product_type == "valve_butterfly")).find?
        (fun y => y.supplier_name == exRow.supplier_name) = some row ∧
      row.supplier_name = exRow.supplier_name ∧
      mkRecommendation exState "valve_butterfly" "Low" 1 1000 row ∈
        exOut.recommendations) := by
  have hmain := c10_one_entry_per_supplier exState "valve_butterfly" "Low" 1 1000 exOut
    (by with_unfolding_all rfl)
  refine ⟨hmain.1, hmain.2.1, hmain.2.2 exRow ?_⟩
  have hh : exState.df.filter (fun r => r.product_type == "valve_butterfly") = [exRow] := by
    with_unfolding_all rfl
  rw [hh]
  exact List.mem_singleton_self _
